import Mathlib

/-!
Verification of the download-orchestration service (`src/main.py`, `src/schemas.py`).

Strings are modelled as `List Char` (`Str`), so that Python string operations
(single-character `replace`, substring `in`, `rstrip`, truthiness of the empty
string, `or` with falsy defaults) become structurally transparent list
operations.  The external collaborators (yt-dlp metadata extraction, media
fetch, the MongoDB persistence helpers) are modelled as injected data:
`Except` values for the two yt-dlp calls and an optional sink function for
`create_document`.  Side effects (fetch invocation, files written by the
fetcher, persistence attempts) are made observable through an explicit
`Effects` record returned next to the HTTP outcome.
-/

namespace App

/-- Strings of the embedded program: Python `str` as a list of characters. -/
abbrev Str := List Char

/-- Coerce a Lean string literal into the model's string type. -/
def str (s : String) : Str := s.data

/-- Python `x or d` for an optional string: `None` and the empty string are
falsy and fall back to the default `d`. -/
def pyOrStr (o : Option Str) (d : Str) : Str :=
  match o with
  | none => d
  | some s => if s = [] then d else s

/-- Python `x or d` for an optional integer: `None` and `0` are falsy and
fall back to the default `d`. -/
def pyOrInt (o : Option Int) (d : Int) : Int :=
  match o with
  | none => d
  | some k => if k = 0 then d else k

/-- Python f-string interpolation of an `Optional[str]` value: `None` prints
as the literal `"None"`. -/
def pyStrOfOpt (o : Option Str) : Str :=
  match o with
  | none => str "None"
  | some s => s

/-- Python `str.capitalize()`: first character uppercased, the rest lowered
(ASCII-level model). -/
def pyCapitalize (s : Str) : Str :=
  match s with
  | [] => []
  | c :: cs => c.toUpper :: cs.map Char.toLower

/-- Python `s.replace(a, b)` for a single-character pattern `a` and
single-character replacement `b`: every occurrence of `a` becomes `b`. -/
def replaceChar (s : Str) (a b : Char) : Str :=
  s.map (fun c => if c = a then b else c)

/-- Python `needle in hay` substring test (case-sensitive, on the raw
characters). -/
def occursIn (needle hay : Str) : Bool :=
  match hay with
  | [] => needle.isEmpty
  | _ :: tl => needle.isPrefixOf hay || occursIn needle tl

/-- Python `s.rstrip("/")`: drop every trailing slash. -/
def rstripSlash (s : Str) : Str :=
  (s.reverse.dropWhile (fun c => c = '/')).reverse

/-- `backend_url[:-1] if backend_url.endswith("/") else backend_url`
(main.py line 72): strip exactly one trailing slash if present. -/
def stripOneTrailingSlash (s : Str) : Str :=
  if s.getLast? = some '/' then s.dropLast else s

/-- `_build_public_file_url` (main.py lines 66-76).  The first argument is
`os.getenv("BACKEND_PUBLIC_URL")` (absent environment variable is `none`);
the second is `str(request.base_url)`.  The configured-base branch strips
exactly one trailing slash; the fallback branch applies `rstrip("/")`. -/
def buildPublicFileUrl (backendPublicUrlEnv : Option Str) (requestBaseUrl : Str)
    (filename : Str) : Str :=
  let backendUrl := pyOrStr backendPublicUrlEnv []
  if backendUrl = [] then
    rstripSlash requestBaseUrl ++ str "/files/" ++ filename
  else
    stripOneTrailingSlash backendUrl ++ str "/files/" ++ filename

/-- Modelled from the spec: the URL-synthesis rule as the specification words
it, with "strip exactly one trailing slash" applied in the fallback branch as
well as the configured branch.  Used only to compare against the code's
`buildPublicFileUrl`. -/
def buildPublicFileUrlSpec (backendPublicUrlEnv : Option Str) (requestBaseUrl : Str)
    (filename : Str) : Str :=
  let backendUrl := pyOrStr backendPublicUrlEnv []
  if backendUrl = [] then
    stripOneTrailingSlash requestBaseUrl ++ str "/files/" ++ filename
  else
    stripOneTrailingSlash backendUrl ++ str "/files/" ++ filename

/-- Platform labelling (main.py lines 105-114): substring checks on the raw
extractor hint, in order YouTube, TikTok, Facebook/Instagram, first match
wins, unmatched falls through to the raw hint.  A missing hint, and also an
empty hint string (falsy under `if extractor:`), yield `none`. -/
def platformOf (extractor : Option Str) : Option Str :=
  match extractor with
  | none => none
  | some e =>
    if e = [] then none
    else if occursIn (str "youtube") e then some (str "YouTube")
    else if occursIn (str "tiktok") e then some (str "TikTok")
    else if occursIn (str "facebook") e || occursIn (str "instagram") e then
      some (str "Facebook")
    else some e

/-- Modelled from the spec: platform labelling as the specification words
it, with the substring match performed on the lowered hint and unmatched
hints falling through to the raw hint.  Used only to compare against the
code's `platformOf`. -/
def platformOfSpecLowered (extractor : Option Str) : Option Str :=
  match extractor with
  | none => none
  | some e =>
    let low := e.map Char.toLower
    if low = [] then none
    else if occursIn (str "youtube") low then some (str "YouTube")
    else if occursIn (str "tiktok") low then some (str "TikTok")
    else if occursIn (str "facebook") low || occursIn (str "instagram") low then
      some (str "Facebook")
    else some e

/-- `(title or "video").replace("/", "-").replace("\\", "-")` applied to an
already-defaulted title string (main.py line 117, second half). -/
def sanitizeTitle (t : Str) : Str :=
  replaceChar (replaceChar t '/' '-') '\\' '-'

/-- `safe_title = (title or "video").replace("/", "-").replace("\\", "-")`
(main.py line 117): Python `or` treats both a missing and an empty title as
absent. -/
def safeTitleOf (title : Option Str) : Str :=
  sanitizeTitle (pyOrStr title (str "video"))

/-- `Path(p).name`: the final path component (after the last slash). -/
def pathName (p : Str) : Str :=
  (p.reverse.takeWhile (fun c => c ≠ '/')).reverse

/-- `Path(p).suffix.lstrip(".")` on a path component: the characters after
the last dot, empty when the name has no extension (a leading dot alone does
not count, matching `pathlib`). -/
def extOf (name : Str) : Str :=
  if (name.drop 1).contains '.' then
    (name.reverse.takeWhile (fun c => c ≠ '.')).reverse
  else []

/-- Decimal rendering of a natural number, for the f-string interpolations
of the generators. -/
def natToStr (n : Nat) : Str := (Nat.repr n).data

/-- Outcome of a FastAPI handler: a response body, or an `HTTPException`
with a status code and a detail string. -/
inductive HttpResult (α : Type) where
  | ok (body : α)
  | error (status : Nat) (detail : Str)
deriving DecidableEq

/-- Request body of `POST /api/download` (`DownloadRequest`). -/
structure DownloadPayload where
  url : Str
  ext : Option Str
deriving DecidableEq

/-- The fields of the yt-dlp info dictionary read by `download_media`
(main.py lines 101-104).  `duration` is an opaque pass-through number. -/
structure InfoDict where
  title : Option Str
  duration : Option Int
  thumbnail : Option Str
  extractor : Option Str
deriving DecidableEq

/-- The fields of the yt-dlp download result read by `download_media`
(main.py lines 132-136): the `_filename` entries of `requested_downloads`
(a missing key is the empty list, a missing `_filename` is `none`), and the
value of `ydl.prepare_filename(result)`. -/
structure FetchOutcome where
  requestedDownloads : List (Option Str)
  preparedFilename : Str
deriving DecidableEq

/-- The injected behaviour of the external collaborators for one call:
the `import yt_dlp` outcome, the metadata-only `extract_info` call, the
downloading `extract_info` call, and the files the fetcher writes into the
storage directory whenever it is invoked. -/
structure DownloadDeps where
  ytdlp : Except Str Unit
  probe : Except Str InfoDict
  fetch : Except Str FetchOutcome
  fetchWrites : List Str

/-- The document written to the `"download"` collection
(main.py lines 153-166). -/
structure DownloadRecord where
  url : Str
  title : Option Str
  platform : Option Str
  filename : Str
  filepath : Str
  thumbnail : Option Str
  duration : Option Int
  ext : Str
  status : Str
deriving DecidableEq

/-- Wire response of `POST /api/download` (`DownloadResponse`). -/
structure DownloadResponse where
  url : Str
  title : Option Str
  platform : Option Str
  duration : Option Int
  ext : Option Str
  filename : Option Str
  fileUrl : Option Str
  thumbnail : Option Str
deriving DecidableEq

/-- Observable side effects of one `download_media` call: whether the fetch
phase ran, which files the fetcher wrote into the storage root, and which
records a persistence write was attempted for. -/
structure Effects where
  fetchInvoked : Bool
  filesWritten : List Str
  persistAttempted : List DownloadRecord
deriving DecidableEq

/-- No side effects at all. -/
def noEffects : Effects :=
  { fetchInvoked := false, filesWritten := [], persistAttempted := [] }

/-- The optional persistence sink for download records: `none` models the
`create_document is None or db is None` case; `some f` models an available
`create_document` whose outcome (success or raised exception) is `f r`. -/
abbrev DownloadSink := Option (DownloadRecord → Except Str Unit)

/-- Resolution of `actual_file` (main.py lines 133-136): the `_filename` of
the first entry of a non-empty `requested_downloads` list, otherwise the
prepared filename derived from the output template. -/
def resolvedFile (outcome : FetchOutcome) : Option Str :=
  match outcome.requestedDownloads with
  | [] => some outcome.preparedFilename
  | d :: _ => d

/-- `download_media` (main.py lines 79-180).  The yt-dlp import, the probe
call and the fetch call are injected through `deps`; the sink's raised
exception (if any) is swallowed, so only the attempt is recorded in the
effects.  `payload.ext` is passed to the fetcher's options and does not
otherwise influence the orchestration, and `str(file_path.resolve())` is
modelled as the file path itself. -/
def downloadMedia (backendPublicUrlEnv : Option Str) (requestBaseUrl : Str)
    (payload : DownloadPayload) (deps : DownloadDeps) (sink : DownloadSink) :
    HttpResult DownloadResponse × Effects :=
  match deps.ytdlp with
  | Except.error e =>
    (HttpResult.error 500 (str "yt-dlp non disponible: " ++ e), noEffects)
  | Except.ok _ =>
    match deps.probe with
    | Except.error e =>
      (HttpResult.error 400 (str "Impossible d\x27analyser l\x27URL: " ++ e), noEffects)
    | Except.ok info =>
      match deps.fetch with
      | Except.error e =>
        (HttpResult.error 500 (str "Echec du téléchargement: " ++ e),
         { fetchInvoked := true, filesWritten := deps.fetchWrites,
           persistAttempted := [] })
      | Except.ok outcome =>
        match resolvedFile outcome with
        | none =>
          (HttpResult.error 500 (str "Fichier non trouvé après téléchargement"),
           { fetchInvoked := true, filesWritten := deps.fetchWrites,
             persistAttempted := [] })
        | some f =>
          if f = [] then
            (HttpResult.error 500 (str "Fichier non trouvé après téléchargement"),
             { fetchInvoked := true, filesWritten := deps.fetchWrites,
               persistAttempted := [] })
          else
            let filename := pathName f
            let ext := extOf filename
            let fileUrl := buildPublicFileUrl backendPublicUrlEnv requestBaseUrl filename
            let record : DownloadRecord :=
              { url := payload.url, title := info.title,
                platform := platformOf info.extractor, filename := filename,
                filepath := f, thumbnail := info.thumbnail,
                duration := info.duration, ext := ext, status := str "ready" }
            let persisted : List DownloadRecord :=
              match sink with
              | none => []
              | some _ => [record]
            (HttpResult.ok
              { url := payload.url, title := info.title,
                platform := platformOf info.extractor,
                duration := info.duration, ext := some ext,
                filename := some filename, fileUrl := some fileUrl,
                thumbnail := info.thumbnail },
             { fetchInvoked := true, filesWritten := deps.fetchWrites,
               persistAttempted := persisted })

/-- The fixed chapter-title templates of `generate_story`
(main.py lines 212-219). -/
def templateTitles : List Str :=
  [str "Origines", str "Le Défi", str "La Découverte",
   str "Le Tournant", str "Résolution", str "Leçon Finale"]

/-- Request body of `POST /api/story` (`StoryRequest`); the `Optional`
fields may be `null` in the request, a missing field carries its pydantic
default (`some` of it). -/
structure StoryReq where
  topic : Str
  style : Option Str
  language : Option Str
  audience : Option Str
  chapters : Option Int
deriving DecidableEq

/-- One generated story chapter (`StoryChapter`). -/
structure StoryChapter where
  title : Str
  summary : Str
deriving DecidableEq

/-- Wire response of `POST /api/story` (`StoryResponse`). -/
structure StoryResponse where
  topic : Str
  style : Str
  language : Str
  audience : Str
  chapters : List StoryChapter
deriving DecidableEq

/-- The document written to the `"story"` collection
(main.py lines 234-243). -/
structure StoryRecord where
  topic : Str
  style : Option Str
  language : Option Str
  audience : Option Str
  chapters : List StoryChapter
deriving DecidableEq

/-- Optional persistence sink for story records. -/
abbrev StorySink := Option (StoryRecord → Except Str Unit)

/-- `n = max(2, min(12, req.chapters or 5))` (main.py line 220): the
requested chapter count clamped into `[2, 12]`, with `None` and `0` falling
back to the default `5`. -/
def storyCount (chapters : Option Int) : Nat :=
  (max 2 (min 12 (pyOrInt chapters 5))).toNat

/-- The chapter built at index `i` of the loop in `generate_story`
(main.py lines 221-229). -/
def mkStoryChapter (req : StoryReq) (i : Nat) : StoryChapter :=
  { title := str "Chapitre " ++ natToStr (i + 1) ++ str ": "
      ++ templateTitles.getD (i % templateTitles.length) []
  , summary := str "Dans ce chapitre, " ++ pyCapitalize req.topic
      ++ str " progresse. Style " ++ pyStrOfOpt req.style
      ++ str ". Public: " ++ pyStrOfOpt req.audience
      ++ str ". Tonalité réfléchie et pédagogique." }

/-- `generate_story` (main.py lines 207-253).  The best-effort persistence
attempt is recorded next to the response; a raised sink exception is
swallowed. -/
def generateStory (req : StoryReq) (sink : StorySink) :
    StoryResponse × List StoryRecord :=
  let n := storyCount req.chapters
  let chapters := (List.range n).map (mkStoryChapter req)
  let persisted : List StoryRecord :=
    match sink with
    | none => []
    | some _ =>
      [{ topic := req.topic, style := req.style, language := req.language,
         audience := req.audience, chapters := chapters }]
  ({ topic := req.topic
   , style := pyOrStr req.style (str "narratif")
   , language := pyOrStr req.language (str "fr")
   , audience := pyOrStr req.audience (str "grand public")
   , chapters := chapters }, persisted)

/-- Request body of `POST /api/course` (`CourseRequest`). -/
structure CourseReq where
  topic : Str
  level : Option Str
  language : Option Str
  target_audience : Option Str
  lessons : Option Int
deriving DecidableEq

/-- One generated course lesson (`CourseLesson`). -/
structure CourseLesson where
  title : Str
  objectives : List Str
  content : Str
deriving DecidableEq

/-- Wire response of `POST /api/course` (`CourseResponse`). -/
structure CourseResponse where
  topic : Str
  level : Str
  language : Str
  target_audience : Str
  lessons : List CourseLesson
deriving DecidableEq

/-- The document written to the `"course"` collection
(main.py lines 299-307). -/
structure CourseRecord where
  topic : Str
  level : Option Str
  language : Option Str
  target_audience : Option Str
  lessons : List CourseLesson
deriving DecidableEq

/-- Optional persistence sink for course records. -/
abbrev CourseSink := Option (CourseRecord → Except Str Unit)

/-- `n = max(3, min(20, req.lessons or 6))` (main.py line 280): the
requested lesson count clamped into `[3, 20]`, with `None` and `0` falling
back to the default `6`. -/
def courseCount (lessons : Option Int) : Nat :=
  (max 3 (min 20 (pyOrInt lessons 6))).toNat

/-- The lesson built at index `i` of the loop in `generate_course`
(main.py lines 282-294). -/
def mkCourseLesson (req : CourseReq) (i : Nat) : CourseLesson :=
  { title := str "Leçon " ++ natToStr (i + 1) ++ str ": " ++ req.topic
      ++ str " - Concept " ++ natToStr (i + 1)
  , objectives :=
      [ str "Comprendre le concept " ++ natToStr (i + 1)
      , str "Appliquer " ++ req.topic ++ str " dans un cas simple"
      , str "Évaluer sa progression au niveau " ++ pyStrOfOpt req.level ]
  , content := str "Cette leçon introduit le concept " ++ natToStr (i + 1)
      ++ str " de " ++ req.topic ++ str ". Adaptée au niveau "
      ++ pyStrOfOpt req.level ++ str ", en " ++ pyStrOfOpt req.language
      ++ str ". Public cible: " ++ pyStrOfOpt req.target_audience
      ++ str "." }

/-- `generate_course` (main.py lines 278-318).  The best-effort persistence
attempt is recorded next to the response; a raised sink exception is
swallowed. -/
def generateCourse (req : CourseReq) (sink : CourseSink) :
    CourseResponse × List CourseRecord :=
  let n := courseCount req.lessons
  let lessons := (List.range n).map (mkCourseLesson req)
  let persisted : List CourseRecord :=
    match sink with
    | none => []
    | some _ =>
      [{ topic := req.topic, level := req.level, language := req.language,
         target_audience := req.target_audience, lessons := lessons }]
  ({ topic := req.topic
   , level := pyOrStr req.level (str "débutant")
   , language := pyOrStr req.language (str "fr")
   , target_audience := pyOrStr req.target_audience (str "grand public")
   , lessons := lessons }, persisted)

/-! Concrete fixtures used by witness theorems. -/

/-- A concrete download request. -/
def payloadC : DownloadPayload :=
  { url := str "https://youtu.be/x", ext := some (str "mp4") }

/-- A concrete probe result. -/
def infoC : InfoDict :=
  { title := some (str "T"), duration := none, thumbnail := none,
    extractor := some (str "youtube") }

/-- A concrete fetch outcome reporting one produced file. -/
def outcomeC : FetchOutcome :=
  { requestedDownloads := [some (str "downloads/T.mp4")],
    preparedFilename := str "downloads/T.%(ext)s" }

/-- A concrete fetch outcome whose first reported download has no
`_filename`. -/
def outcomeNoFileC : FetchOutcome :=
  { requestedDownloads := [none], preparedFilename := str "downloads/T.%(ext)s" }

/-- Dependencies for a fully successful run. -/
def depsOkC : DownloadDeps :=
  { ytdlp := Except.ok (), probe := Except.ok infoC, fetch := Except.ok outcomeC,
    fetchWrites := [str "downloads/T.mp4"] }

/-- Dependencies whose probe call raises. -/
def depsProbeErrC : DownloadDeps :=
  { ytdlp := Except.ok (), probe := Except.error (str "boom"),
    fetch := Except.error (str "unused"), fetchWrites := [] }

/-- Dependencies for a run whose fetch succeeds but resolves no file. -/
def depsNoFileC : DownloadDeps :=
  { depsOkC with fetch := Except.ok outcomeNoFileC }

/-- A concrete story request. -/
def storyReqC : StoryReq :=
  { topic := str "les abeilles", style := some (str "narratif"),
    language := some (str "fr"), audience := some (str "grand public"),
    chapters := some 5 }

/-- A concrete story request asking for zero chapters. -/
def storyReq0C : StoryReq := { storyReqC with chapters := some 0 }

/-- A concrete story request asking for eight chapters. -/
def storyReq8C : StoryReq := { storyReqC with chapters := some 8 }

/-- A concrete course request asking for zero lessons. -/
def courseReq0C : CourseReq :=
  { topic := str "la physique", level := some (str "débutant"),
    language := some (str "fr"), target_audience := some (str "grand public"),
    lessons := some 0 }

/-! Helper lemmas. -/

/-- The HTTP outcome of `download_media` does not depend on the sink: the
persistence attempt's result is swallowed. -/
theorem downloadMedia_fst_sink_irrel (backendPublicUrlEnv : Option Str)
    (requestBaseUrl : Str) (payload : DownloadPayload) (deps : DownloadDeps)
    (s₁ s₂ : DownloadSink) :
    (downloadMedia backendPublicUrlEnv requestBaseUrl payload deps s₁).1
      = (downloadMedia backendPublicUrlEnv requestBaseUrl payload deps s₂).1 := by
  rcases deps with ⟨y, p, fch, w⟩
  rcases y with e | u
  · rfl
  · rcases p with e | info
    · rfl
    · rcases fch with e | outcome
      · rfl
      · unfold downloadMedia
        rcases h : resolvedFile outcome with _ | f
        · simp only [h]
        · simp only [h]
          by_cases hf : f = []
          · simp only [if_pos hf]
          · simp only [if_neg hf]

/-! Claim theorems. -/

/-- C1: if the probe call raises, `download_media` fails immediately with an
HTTP 400 error carrying the underlying cause message, the fetch phase is
never invoked (the outcome is independent of the fetch behaviour), no file is
written, and no persistence write is attempted. -/
theorem c1_probe_failure_short_circuits (backendPublicUrlEnv : Option Str)
    (requestBaseUrl : Str) (payload : DownloadPayload) (deps : DownloadDeps)
    (sink : DownloadSink) (e : Str)
    (hy : deps.ytdlp = Except.ok ()) (hp : deps.probe = Except.error e) :
    (downloadMedia backendPublicUrlEnv requestBaseUrl payload deps sink).1
        = HttpResult.error 400 (str "Impossible d\x27analyser l\x27URL: " ++ e)
      ∧ (downloadMedia backendPublicUrlEnv requestBaseUrl payload deps sink).2
        = noEffects
      ∧ ∀ f w, downloadMedia backendPublicUrlEnv requestBaseUrl payload
            { deps with fetch := f, fetchWrites := w } sink
          = downloadMedia backendPublicUrlEnv requestBaseUrl payload deps sink := by
  rcases deps with ⟨y, p, fch, w⟩
  simp only at hy hp
  subst hy; subst hp
  exact ⟨rfl, rfl, fun _ _ => rfl⟩

/-- C1 witness: a concrete probe failure yields the 400 error, no effects. -/
theorem c1_witness :
    (downloadMedia none (str "http://h/") payloadC depsProbeErrC none).1
        = HttpResult.error 400 (str "Impossible d\x27analyser l\x27URL: boom")
      ∧ (downloadMedia none (str "http://h/") payloadC depsProbeErrC none).2
        = noEffects := by
  have h := c1_probe_failure_short_circuits none (str "http://h/") payloadC
    depsProbeErrC none (str "boom") rfl rfl
  exact ⟨h.1.trans (by decide), h.2.1⟩

/-- C2: a persistence sink that throws on every write yields exactly the
same HTTP outcome as an absent sink, on each of the download, story and
course endpoints. -/
theorem c2_sink_failure_isolation (backendPublicUrlEnv : Option Str)
    (requestBaseUrl : Str) (payload : DownloadPayload) (deps : DownloadDeps)
    (sreq : StoryReq) (creq : CourseReq)
    (fd : DownloadRecord → Except Str Unit)
    (fs : StoryRecord → Except Str Unit)
    (fc : CourseRecord → Except Str Unit)
    (hd : ∀ r, ∃ e, fd r = Except.error e)
    (hs : ∀ r, ∃ e, fs r = Except.error e)
    (hc : ∀ r, ∃ e, fc r = Except.error e) :
    (downloadMedia backendPublicUrlEnv requestBaseUrl payload deps (some fd)).1
        = (downloadMedia backendPublicUrlEnv requestBaseUrl payload deps none).1
      ∧ (generateStory sreq (some fs)).1 = (generateStory sreq none).1
      ∧ (generateCourse creq (some fc)).1 = (generateCourse creq none).1 :=
  ⟨downloadMedia_fst_sink_irrel backendPublicUrlEnv requestBaseUrl payload deps
      (some fd) none, rfl, rfl⟩

/-- C2 witness: a concrete always-throwing sink leaves the outcome of all
three endpoints unchanged relative to an absent sink. -/
theorem c2_witness :
    (downloadMedia none (str "http://h/") payloadC depsOkC
          (some (fun _ => Except.error (str "boom")))).1
        = (downloadMedia none (str "http://h/") payloadC depsOkC none).1
      ∧ (generateStory storyReqC (some (fun _ => Except.error (str "boom")))).1
        = (generateStory storyReqC none).1
      ∧ (generateCourse courseReq0C (some (fun _ => Except.error (str "boom")))).1
        = (generateCourse courseReq0C none).1 :=
  c2_sink_failure_isolation none (str "http://h/") payloadC depsOkC
    storyReqC courseReq0C _ _ _
    (fun _ => ⟨str "boom", rfl⟩) (fun _ => ⟨str "boom", rfl⟩)
    (fun _ => ⟨str "boom", rfl⟩)

/-- The chapter count of a generated story is the clamped count. -/
theorem generateStory_length (req : StoryReq) (sink : StorySink) :
    (generateStory req sink).1.chapters.length = storyCount req.chapters := by
  simp [generateStory]

/-- C3 counterexample: requesting `chapters = 0` yields 5 chapters (the
default, because Python's `or` treats `0` as falsy), not the claimed
minimum 2. -/
theorem c3_counterexample :
    (generateStory storyReq0C none).1.chapters.length = 5
      ∧ (generateStory storyReq0C none).1.chapters.length ≠ 2 := by
  constructor
  · rfl
  · decide

/-- C3 amended: the story generator computes the chapter count as
`max(2, min(12, chapters or 5))`, where a missing count and `chapters = 0`
both fall back to the default 5 (so `chapters = 0` yields 5, `chapters = 1`
yields the minimum 2, `chapters = 100` yields the maximum 12), and chapter
titles cycle through the fixed 6-item title list by index modulo 6. -/
theorem c3_story_generation_amended (req : StoryReq) (sink : StorySink) :
    (generateStory req sink).1.chapters.length = storyCount req.chapters
      ∧ (∀ i ch, ((generateStory req sink).1.chapters)[i]? = some ch →
          ch.title = str "Chapitre " ++ natToStr (i + 1) ++ str ": "
              ++ templateTitles.getD (i % 6) [])
      ∧ (req.chapters = some 0 → (generateStory req sink).1.chapters.length = 5)
      ∧ (req.chapters = some 1 → (generateStory req sink).1.chapters.length = 2)
      ∧ (req.chapters = some 100 →
          (generateStory req sink).1.chapters.length = 12) := by
  refine ⟨generateStory_length req sink, ?_, ?_, ?_, ?_⟩
  · intro i ch h
    have hch : ((List.range (storyCount req.chapters)).map
        (mkStoryChapter req))[i]? = some ch := h
    rcases Nat.lt_or_ge i (storyCount req.chapters) with hlt | hge
    · rw [List.getElem?_map, List.getElem?_range hlt] at hch
      rw [← Option.some_inj.mp hch]
      rfl
    · rw [List.getElem?_map, List.getElem?_eq_none (by simpa using hge)] at hch
      exact Option.noConfusion hch
  · intro h; rw [generateStory_length, h]; rfl
  · intro h; rw [generateStory_length, h]; rfl
  · intro h; rw [generateStory_length, h]; rfl

/-- C3 witness: with `chapters = 8` the story has 8 chapters and the seventh
chapter (index 6) restarts the title list at its first entry. -/
theorem c3_witness :
    (generateStory storyReq8C none).1.chapters.length = 8
      ∧ (mkStoryChapter storyReq8C 6).title = str "Chapitre 7: Origines" := by
  have h := c3_story_generation_amended storyReq8C none
  constructor
  · rw [h.1]; rfl
  · have ht := h.2.1 6 (mkStoryChapter storyReq8C 6) (by decide)
    rw [ht]; decide

/-- C4 counterexample: the fallback branch of `_build_public_file_url` uses
`rstrip("/")`, stripping every trailing slash of the request base URL rather
than exactly one, so on the base string `"http://h//"` the code disagrees
with the claimed strip-exactly-one join rule. -/
theorem c4_counterexample :
    buildPublicFileUrl none (str "http://h//") (str "a.mp4")
        ≠ buildPublicFileUrlSpec none (str "http://h//") (str "a.mp4")
      ∧ buildPublicFileUrl none (str "http://h//") (str "a.mp4")
        = str "http://h/files/a.mp4"
      ∧ buildPublicFileUrlSpec none (str "http://h//") (str "a.mp4")
        = str "http://h//files/a.mp4" := by
  refine ⟨?_, ?_, ?_⟩ <;> decide

/-- C4 amended: when a non-empty configured base URL is present, exactly one
trailing slash is stripped and `/files/<filename>` is appended; when it is
absent, the request base URL has all of its trailing slashes stripped (not
exactly one) before the same suffix is appended; both example bases
`"https://api.example.com/"` and `"https://api.example.com"` with filename
`"a.mp4"` yield exactly `"https://api.example.com/files/a.mp4"`. -/
theorem c4_url_synthesis_amended (base requestBaseUrl filename : Str) :
    (base ≠ [] → buildPublicFileUrl (some base) requestBaseUrl filename
        = stripOneTrailingSlash base ++ str "/files/" ++ filename)
      ∧ buildPublicFileUrl none requestBaseUrl filename
        = rstripSlash requestBaseUrl ++ str "/files/" ++ filename
      ∧ buildPublicFileUrl (some []) requestBaseUrl filename
        = rstripSlash requestBaseUrl ++ str "/files/" ++ filename
      ∧ buildPublicFileUrl (some (str "https://api.example.com/"))
            requestBaseUrl (str "a.mp4")
        = str "https://api.example.com/files/a.mp4"
      ∧ buildPublicFileUrl (some (str "https://api.example.com"))
            requestBaseUrl (str "a.mp4")
        = str "https://api.example.com/files/a.mp4" := by
  have hconf : ∀ base fname, base ≠ [] →
      buildPublicFileUrl (some base) requestBaseUrl fname
        = stripOneTrailingSlash base ++ str "/files/" ++ fname := by
    intro base fname hb
    simp [buildPublicFileUrl, pyOrStr, hb]
  refine ⟨fun hb => hconf base filename hb, rfl, rfl, ?_, ?_⟩
  · exact (hconf _ _ (by decide)).trans (by decide)
  · exact (hconf _ _ (by decide)).trans (by decide)

/-- C4 witness: a concrete non-empty configured base follows the
strip-one-slash join rule. -/
theorem c4_witness :
    buildPublicFileUrl (some (str "b/")) (str "http://h/") (str "a.mp4")
      = str "b/files/a.mp4" := by
  have h := (c4_url_synthesis_amended (str "b/") (str "http://h/")
    (str "a.mp4")).1 (by decide)
  exact h.trans (by decide)

/-- C5 counterexample: the code matches substrings on the raw extractor
hint, never lowering it, so on the hint `"YOUTUBE"` it passes the hint
through unchanged while the claimed match-on-the-lowered-hint rule would
label it `"YouTube"`. -/
theorem c5_counterexample :
    platformOf (some (str "YOUTUBE")) ≠ platformOfSpecLowered (some (str "YOUTUBE"))
      ∧ platformOf (some (str "YOUTUBE")) = some (str "YOUTUBE")
      ∧ platformOfSpecLowered (some (str "YOUTUBE")) = some (str "YouTube") := by
  refine ⟨?_, ?_, ?_⟩ <;> decide

/-- C5 amended: platform labelling is a pure function of the extractor hint,
decided by case-sensitive substring match on the raw (not lowered) hint in a
significant order with first match winning: `"youtube_shorts"` maps to
`"YouTube"`, `"tiktok"` to `"TikTok"`, `"instagram_reel"` to `"Facebook"`,
the unmatched `"vimeo"` passes through unchanged, a missing hint yields
`none`, any hint containing `"youtube"` maps to `"YouTube"` regardless of
the other patterns, and `"tiktok"` is only consulted when `"youtube"` does
not occur. -/
theorem c5_platform_labeling_amended :
    platformOf (some (str "youtube_shorts")) = some (str "YouTube")
      ∧ platformOf (some (str "tiktok")) = some (str "TikTok")
      ∧ platformOf (some (str "instagram_reel")) = some (str "Facebook")
      ∧ platformOf (some (str "vimeo")) = some (str "vimeo")
      ∧ platformOf none = none
      ∧ (∀ e, occursIn (str "youtube") e = true →
          platformOf (some e) = some (str "YouTube"))
      ∧ (∀ e, occursIn (str "youtube") e = false →
          occursIn (str "tiktok") e = true →
          platformOf (some e) = some (str "TikTok")) := by
  refine ⟨by decide, by decide, by decide, by decide, rfl, ?_, ?_⟩
  · intro e hy
    rcases e with _ | ⟨c, cs⟩
    · exact absurd hy (by decide)
    · simp [platformOf, hy]
  · intro e hy ht
    rcases e with _ | ⟨c, cs⟩
    · exact absurd ht (by decide)
    · simp [platformOf, hy, ht]

/-- C5 witness: a hint containing both `"tiktok"` and `"youtube"` is
labelled `"YouTube"` because the YouTube check comes first. -/
theorem c5_witness :
    platformOf (some (str "tiktok_youtube")) = some (str "YouTube") :=
  c5_platform_labeling_amended.2.2.2.2.2.1 (str "tiktok_youtube") (by decide)

/-- The replaced character never survives a `replaceChar` whose replacement
differs from it. -/
theorem replaceChar_not_mem (s : Str) (a b : Char) (hab : b ≠ a) :
    a ∉ replaceChar s a b := by
  intro h
  rcases List.mem_map.mp h with ⟨c, _, hce⟩
  by_cases hca : c = a
  · rw [if_pos hca] at hce
    exact hab hce
  · rw [if_neg hca] at hce
    exact hca hce

/-- A member of a `replaceChar` image that is not the replacement character
was already a member distinct from the replaced character. -/
theorem mem_of_mem_replaceChar {x : Char} {s : Str} {a b : Char}
    (h : x ∈ replaceChar s a b) (hxb : x ≠ b) : x ∈ s ∧ x ≠ a := by
  rcases List.mem_map.mp h with ⟨c, hc, hce⟩
  by_cases hca : c = a
  · rw [if_pos hca] at hce
    exact absurd hce.symm hxb
  · rw [if_neg hca] at hce
    exact ⟨hce ▸ hc, hce ▸ hca⟩

/-- The title actually sanitized is never the empty string. -/
theorem pyOrStr_title_ne_nil (title : Option Str) :
    pyOrStr title (str "video") ≠ [] := by
  rcases title with _ | t
  · decide
  · by_cases ht : t = [] <;> simp [pyOrStr, ht]
    decide

/-- C6: title sanitization replaces every forward-slash and backslash with a
hyphen; an absent title falls back to the literal `"video"`; the derived
filename base never contains a separator, is never empty, and a title made
only of separators collapses to all hyphens. -/
theorem c6_title_sanitization (title : Option Str) :
    '/' ∉ safeTitleOf title
      ∧ '\\' ∉ safeTitleOf title
      ∧ safeTitleOf title ≠ []
      ∧ (title = none → safeTitleOf title = str "video")
      ∧ (∀ t, title = some t → t ≠ [] → (∀ c ∈ t, c = '/' ∨ c = '\\') →
          safeTitleOf title = List.replicate t.length '-') := by
  refine ⟨?_, ?_, ?_, ?_, ?_⟩
  · intro h
    have h1 := mem_of_mem_replaceChar h (by decide)
    exact replaceChar_not_mem _ '/' '-' (by decide) h1.1
  · exact replaceChar_not_mem _ '\\' '-' (by decide)
  · intro h
    have hlen : (safeTitleOf title).length
        = (pyOrStr title (str "video")).length := by
      simp [safeTitleOf, sanitizeTitle, replaceChar]
    rw [h] at hlen
    exact pyOrStr_title_ne_nil title (List.eq_nil_of_length_eq_zero hlen.symm)
  · intro h
    rw [h]
    decide
  · intro t ht htne hsep
    rw [ht]
    have hbase : pyOrStr (some t) (str "video") = t := by
      simp [pyOrStr, htne]
    rw [safeTitleOf, hbase]
    rw [List.eq_replicate_iff]
    refine ⟨by simp [sanitizeTitle, replaceChar], ?_⟩
    intro b hb
    rcases List.mem_map.mp hb with ⟨c1, hc1, hce1⟩
    rcases List.mem_map.mp hc1 with ⟨c0, hc0, hce0⟩
    rcases hsep c0 hc0 with h0 | h0
    · rw [h0] at hce0
      rw [← hce0] at hce1
      rw [← hce1]
      decide
    · rw [h0] at hce0
      rw [← hce0] at hce1
      rw [← hce1]
      decide

/-- C6 witness: concrete sanitizations; a mixed title keeps no separators
and a separator-only title becomes all hyphens. -/
theorem c6_witness :
    '/' ∉ safeTitleOf (some (str "a/b\\c"))
      ∧ safeTitleOf (some (str "//\\")) = List.replicate 3 '-' :=
  ⟨(c6_title_sanitization (some (str "a/b\\c"))).1,
   (c6_title_sanitization (some (str "//\\"))).2.2.2.2 (str "//\\") rfl
     (by decide) (by decide)⟩

/-- C9: an empty-string extracted title is treated as absent (Python `or`)
and falls back to `"video"`, so the derived filename base is non-empty even
for `title = ""`. -/
theorem c9_empty_title_fallback :
    safeTitleOf (some []) = str "video" ∧ safeTitleOf (some []) ≠ [] := by
  refine ⟨?_, ?_⟩ <;> decide

/-- The record a successful download run persists. -/
def recC : DownloadRecord :=
  { url := str "https://youtu.be/x", title := some (str "T"),
    platform := some (str "YouTube"), filename := str "T.mp4",
    filepath := str "downloads/T.mp4", thumbnail := none, duration := none,
    ext := str "mp4", status := str "ready" }

/-- C7: after a successful fetch, the orchestrator resolves the output file
as the first reported download's path when at least one is reported, and as
the template-derived prepared filename when none is; if no file path is
resolvable (missing or empty), the call fails with HTTP 500; otherwise the
response is built entirely from the resolved file. -/
theorem c7_result_resolution (backendPublicUrlEnv : Option Str)
    (requestBaseUrl : Str) (payload : DownloadPayload) (deps : DownloadDeps)
    (sink : DownloadSink) (info : InfoDict) (outcome : FetchOutcome)
    (hy : deps.ytdlp = Except.ok ()) (hp : deps.probe = Except.ok info)
    (hf : deps.fetch = Except.ok outcome) :
    ((resolvedFile outcome = none ∨ resolvedFile outcome = some []) →
        (downloadMedia backendPublicUrlEnv requestBaseUrl payload deps sink).1
          = HttpResult.error 500 (str "Fichier non trouvé après téléchargement"))
      ∧ (∀ f, resolvedFile outcome = some f → f ≠ [] →
          (downloadMedia backendPublicUrlEnv requestBaseUrl payload deps sink).1
            = HttpResult.ok
                { url := payload.url, title := info.title,
                  platform := platformOf info.extractor,
                  duration := info.duration, ext := some (extOf (pathName f)),
                  filename := some (pathName f),
                  fileUrl := some (buildPublicFileUrl backendPublicUrlEnv
                    requestBaseUrl (pathName f)),
                  thumbnail := info.thumbnail })
      ∧ (∀ d rest, outcome.requestedDownloads = d :: rest →
          resolvedFile outcome = d)
      ∧ (outcome.requestedDownloads = [] →
          resolvedFile outcome = some outcome.preparedFilename) := by
  rcases deps with ⟨y, p, fch, w⟩
  simp only at hy hp hf
  subst hy; subst hp; subst hf
  refine ⟨?_, ?_, ?_, ?_⟩
  · rintro (h | h)
    · simp only [downloadMedia]
      rw [h]
    · simp only [downloadMedia]
      rw [h]
      rfl
  · intro f hres hfne
    simp only [downloadMedia]
    rw [hres]
    simp [hfne]
  · intro d rest h
    simp [resolvedFile, h]
  · intro h
    simp [resolvedFile, h]

/-- C7 witness: a fetch whose only reported download carries no file name
resolves no output and fails with the 500 "output missing" error. -/
theorem c7_witness :
    (downloadMedia none (str "http://h/") payloadC depsNoFileC none).1
      = HttpResult.error 500 (str "Fichier non trouvé après téléchargement") :=
  (c7_result_resolution none (str "http://h/") payloadC depsNoFileC none
    infoC outcomeNoFileC rfl rfl rfl).1 (Or.inl rfl)

/-- C8: every record the download flow hands to the persistence sink has
status exactly `"ready"`. -/
theorem c8_persisted_status_ready (backendPublicUrlEnv : Option Str)
    (requestBaseUrl : Str) (payload : DownloadPayload) (deps : DownloadDeps)
    (sink : DownloadSink) (r : DownloadRecord)
    (hr : r ∈ (downloadMedia backendPublicUrlEnv requestBaseUrl payload deps
      sink).2.persistAttempted) :
    r.status = str "ready" := by
  rcases deps with ⟨y, p, fch, w⟩
  rcases y with e | u
  · simp [downloadMedia, noEffects] at hr
  · rcases p with e | info
    · simp [downloadMedia, noEffects] at hr
    · rcases fch with e | outcome
      · simp [downloadMedia, noEffects] at hr
      · simp only [downloadMedia] at hr
        rcases hres : resolvedFile outcome with _ | f
        · rw [hres] at hr
          simp at hr
        · rw [hres] at hr
          by_cases hfe : f = []
          · simp [hfe] at hr
          · rcases sink with _ | snk
            · simp [hfe] at hr
            · simp [hfe] at hr
              rw [hr]

/-- C8 witness: the record persisted by a concrete successful run has
status `"ready"`. -/
theorem c8_witness : recC.status = str "ready" :=
  c8_persisted_status_ready none (str "http://h/") payloadC depsOkC
    (some (fun _ => Except.ok ())) recC (by decide)

/-- C10: the course generator produces `max(3, min(20, lessons or 6))`
lessons, clamped into `[3, 20]`; a missing lesson count and `lessons = 0`
both yield the default 6, not the minimum. -/
theorem c10_course_lesson_clamping (req : CourseReq) (sink : CourseSink) :
    (generateCourse req sink).1.lessons.length
        = (max 3 (min 20 (pyOrInt req.lessons 6))).toNat
      ∧ 3 ≤ (generateCourse req sink).1.lessons.length
      ∧ (generateCourse req sink).1.lessons.length ≤ 20
      ∧ (req.lessons = none → (generateCourse req sink).1.lessons.length = 6)
      ∧ (req.lessons = some 0 →
          (generateCourse req sink).1.lessons.length = 6) := by
  have hlen : (generateCourse req sink).1.lessons.length
      = courseCount req.lessons := by
    simp [generateCourse]
  refine ⟨hlen, ?_, ?_, ?_, ?_⟩
  · rw [hlen]
    unfold courseCount
    have h1 : (3 : Int) ≤ max 3 (min 20 (pyOrInt req.lessons 6)) :=
      le_max_left _ _
    omega
  · rw [hlen]
    unfold courseCount
    have h1 : max 3 (min 20 (pyOrInt req.lessons 6)) ≤ 20 :=
      max_le (by norm_num) (min_le_left _ _)
    omega
  · intro h
    rw [hlen, h]
    rfl
  · intro h
    rw [hlen, h]
    rfl

/-- C10 witness: requesting zero lessons yields the default 6. -/
theorem c10_witness : (generateCourse courseReq0C none).1.lessons.length = 6 :=
  (c10_course_lesson_clamping courseReq0C none).2.2.2.2 rfl

end App
